import Mathlib

set_option maxRecDepth 4000

/-!
Verification of the resilience and observability layer of the repository:
the failure classifier, the circuit breaker and the service monitor from
src/monitoring/service_monitor.py, and the guarded HTTP request path from
src/services/http_reader.py, shallowly embedded in Lean.

Timestamps are modelled as natural numbers counting whole seconds; the
Python float 0.8 threshold is modelled as the rational 4/5 (for window
lengths up to 10 the IEEE-double comparison and the rational comparison
coincide on every reachable failure rate). String lowering models the
ASCII behaviour of str.lower, which covers every rule pattern used by
the classifier.
-/

/-- listStarts s p is true when p is an initial run of s
(models str.startswith at the character-list level). -/
def listStarts : List Char → List Char → Bool
  | _, [] => true
  | [], _ :: _ => false
  | c :: cs, p :: ps => c == p && listStarts cs ps

/-- listHasSub s p is true when p occurs contiguously inside s
(models the Python expression p in s at the character-list level). -/
def listHasSub : List Char → List Char → Bool
  | [], p => p.isEmpty
  | c :: cs, p => listStarts (c :: cs) p || listHasSub cs p

/-- hasSub pat s models the Python expression pat in s on strings. -/
def hasSub (pat s : String) : Bool :=
  listHasSub s.data pat.data

/-- strStarts s pre models s.startswith(pre) on strings. -/
def strStarts (s pre : String) : Bool :=
  listStarts s.data pre.data

/-- pyLower models str.lower for ASCII text (every classifier pattern is ASCII). -/
def pyLower (s : String) : String :=
  String.mk (s.data.map Char.toLower)

/-- FailureType from src/monitoring/service_monitor.py. -/
inductive FailureType where
  | TIMEOUT
  | CONNECTION_ERROR
  | HTTP_ERROR
  | JSON_DECODE_ERROR
  | ACCESS_DENIED
  | DNS_ERROR
  | UNKNOWN_ERROR
  | DB_ERROR
deriving DecidableEq

/-- classify_error from src/monitoring/service_monitor.py lines 288-307:
lowercases the message and applies the fixed rule chain, first match wins. -/
def classify_error (error_message : String) : FailureType :=
  let el := pyLower error_message
  if hasSub "timed out" el || hasSub "timeout" el then FailureType.TIMEOUT
  else if hasSub "connection" el && (hasSub "refused" el || hasSub "failed" el) then
    FailureType.CONNECTION_ERROR
  else if hasSub "access denied" el || hasSub "forbidden" el || hasSub "403" el then
    FailureType.ACCESS_DENIED
  else if hasSub "dns resolution failed" el then FailureType.DNS_ERROR
  else if hasSub "json decode" el || hasSub "json" el then FailureType.JSON_DECODE_ERROR
  else if hasSub "404" el || hasSub "500" el || hasSub "502" el || hasSub "503" el ||
      hasSub "504" el then FailureType.HTTP_ERROR
  else if hasSub "sql" el || hasSub "database" el || hasSub "driver" el then FailureType.DB_ERROR
  else FailureType.UNKNOWN_ERROR

/-- Breaker states from src/services/http_reader.py line 55. -/
inductive BState where
  | CLOSED
  | OPEN
  | HALF_OPEN
deriving DecidableEq

/-- CircuitBreaker state from src/services/http_reader.py lines 47-55. -/
structure CircuitBreaker where
  failure_threshold : Nat
  timeout : Nat
  failure_count : Nat
  last_failure_time : Option Nat
  state : BState
deriving DecidableEq

/-- CircuitBreaker.__init__ from src/services/http_reader.py lines 50-55. -/
def CircuitBreaker.init (failure_threshold timeout : Nat) : CircuitBreaker :=
  ⟨failure_threshold, timeout, 0, none, BState.CLOSED⟩

/-- Outcome of one CircuitBreaker.call: rejected models the raised
Circuit-breaker-is-OPEN exception with the wrapped function never invoked,
succeeded models a normal return, failed models the re-raised exception
of the wrapped function. -/
inductive CallResult where
  | rejected
  | succeeded
  | failed
deriving DecidableEq

/-- CircuitBreaker.call from src/services/http_reader.py lines 57-90.
funcSucceeds tells whether the wrapped function would return normally.
The Python code compares (datetime.now() - last_failure_time).seconds,
the seconds component of the normalized timedelta, which is the elapsed
whole seconds reduced by floor-mod into [0, 86400); Int.emod with the
positive modulus 86400 reproduces that exactly. -/
def CircuitBreaker.call (cb : CircuitBreaker) (now : Nat) (funcSucceeds : Bool) :
    CallResult × CircuitBreaker :=
  let gate : Option CircuitBreaker :=
    if cb.state = BState.OPEN then
      match cb.last_failure_time with
      | some t =>
        if ((now : Int) - (t : Int)) % 86400 < (cb.timeout : Int) then none
        else some { cb with state := BState.HALF_OPEN }
      | none => some { cb with state := BState.HALF_OPEN }
    else some cb
  match gate with
  | none => (CallResult.rejected, cb)
  | some cb1 =>
    if funcSucceeds then
      if cb1.state = BState.HALF_OPEN ∨ cb1.state = BState.OPEN then
        (CallResult.succeeded,
          { cb1 with state := BState.CLOSED, failure_count := 0, last_failure_time := none })
      else (CallResult.succeeded, cb1)
    else
      let cb2 := { cb1 with failure_count := cb1.failure_count + 1, last_failure_time := some now }
      if cb2.failure_threshold ≤ cb2.failure_count then
        (CallResult.failed, { cb2 with state := BState.OPEN })
      else (CallResult.failed, cb2)

/-- A breaker that tripped OPEN at time 0 with threshold 3 and a 30 second
open window (the service-call configuration from http_reader.py line 111). -/
def openStale : CircuitBreaker :=
  ⟨3, 30, 3, some 0, BState.OPEN⟩

/-- A CLOSED breaker that has already seen two failures (threshold 5,
the generic-HTTP default of http_reader.py line 50). -/
def closedTwo : CircuitBreaker :=
  ⟨5, 60, 2, some 7, BState.CLOSED⟩

/-- Structured events emitted by the monitor: only the identity of the
event and the recovery duration matter to the claims, the remaining log
payload fields are reads of the monitor state captured elsewhere. -/
inductive MEvent where
  | request_success
  | request_failure
  | service_recovery (downtime : Int)
  | alert (name : String) (severity : String)
deriving DecidableEq

/-- ServiceMonitor state from src/monitoring/service_monitor.py lines 52-68.
failure_window is the sliding window of the last window_size outcomes,
true for success and false for failure, exactly as the Python list. -/
structure ServiceMonitor where
  service_name : String
  consecutive_failures : Nat
  total_attempts : Nat
  total_failures : Nat
  failure_window : List Bool
  last_success_time : Option Nat
  downtime_start : Option Nat
  consecutive_failure_threshold : Nat
  failure_rate_threshold : Rat
  window_size : Nat
deriving DecidableEq

/-- ServiceMonitor.__init__ from src/monitoring/service_monitor.py lines 55-68:
thresholds 3 consecutive failures, rate 0.8 (the rational 4/5), window 10. -/
def ServiceMonitor.mkInit (service_name : String) : ServiceMonitor :=
  { service_name := service_name
    consecutive_failures := 0
    total_attempts := 0
    total_failures := 0
    failure_window := []
    last_success_time := none
    downtime_start := none
    consecutive_failure_threshold := 3
    failure_rate_threshold := mkRat 4 5
    window_size := 10 }

/-- The default monitor instance. -/
def initMonitor : ServiceMonitor :=
  ServiceMonitor.mkInit "generic-service"

/-- The window update repeated in both log methods (lines 151-153 and
188-190): append the outcome, then pop the oldest entry when the length
exceeds window_size. -/
def pushWindow (window_size : Nat) (w : List Bool) (b : Bool) : List Bool :=
  let w2 := w ++ [b]
  if window_size < w2.length then w2.drop 1 else w2

/-- ServiceMonitor._calculate_failure_rate from lines 221-227: the float
quotient failures / window length is modelled as the exact rational
mkRat failures length, which equals the rational division (see
C6_sliding_window). -/
def ServiceMonitor.calculate_failure_rate (m : ServiceMonitor) : Rat :=
  if m.failure_window = [] then 0
  else mkRat (m.failure_window.count false : Int) m.failure_window.length

/-- ServiceMonitor._check_and_generate_alerts from lines 229-254, returning
the emitted alert events in order. -/
def ServiceMonitor.check_and_generate_alerts (m : ServiceMonitor) : List MEvent :=
  (if m.consecutive_failure_threshold ≤ m.consecutive_failures then
    [MEvent.alert "CONSECUTIVE_FAILURES" "CRITICAL"]
  else []) ++
  (if m.failure_rate_threshold ≤ m.calculate_failure_rate ∧ 5 ≤ m.failure_window.length then
    [MEvent.alert "HIGH_FAILURE_RATE" "WARNING"]
  else [])

/-- ServiceMonitor.log_attempt_success from lines 136-172: returns the new
state and the events emitted in order (the recovery event, when the service
was in a failure streak, then the success log). -/
def ServiceMonitor.log_attempt_success (m : ServiceMonitor) (now : Nat) :
    ServiceMonitor × List MEvent :=
  let recEvents : List MEvent :=
    match m.downtime_start with
    | some d => [MEvent.service_recovery ((now : Int) - (d : Int))]
    | none => []
  let m2 := { m with
    consecutive_failures := 0
    total_attempts := m.total_attempts + 1
    last_success_time := some now
    downtime_start := none
    failure_window := pushWindow m.window_size m.failure_window true }
  (m2, recEvents ++ [MEvent.request_success])

/-- ServiceMonitor.log_attempt_failure from lines 174-219: returns the new
state and the events emitted in order (the failure log, then the alerts
evaluated on the updated state). -/
def ServiceMonitor.log_attempt_failure (m : ServiceMonitor) (now : Nat) :
    ServiceMonitor × List MEvent :=
  let cf := m.consecutive_failures + 1
  let m2 := { m with
    consecutive_failures := cf
    total_attempts := m.total_attempts + 1
    total_failures := m.total_failures + 1
    downtime_start := if cf = 1 then some now else m.downtime_start
    failure_window := pushWindow m.window_size m.failure_window false }
  (m2, MEvent.request_failure :: m2.check_and_generate_alerts)

/-- Record one outcome (true for success) and keep only the state. -/
def recordOne (m : ServiceMonitor) (b : Bool) : ServiceMonitor :=
  if b then (m.log_attempt_success 0).1 else (m.log_attempt_failure 0).1

/-- Record a sequence of outcomes in order. -/
def recordSeq (m : ServiceMonitor) (os : List Bool) : ServiceMonitor :=
  os.foldl recordOne m

/-- The last n elements of a list. -/
def lastN {α : Type} (n : Nat) (l : List α) : List α :=
  l.drop (l.length - n)

/-- The SERVICE_RECOVERY events inside an event list. -/
def recoveries (es : List MEvent) : List MEvent :=
  es.filter fun e =>
    match e with
    | MEvent.service_recovery _ => true
    | _ => false

/-- The monitor after k straight failures from a fresh state. -/
def mAfterFailures (k : Nat) : ServiceMonitor :=
  recordSeq initMonitor (List.replicate k false)

/-- Result of HTTPReader.make_request: either the parsed JSON payload
(kept opaque as the response body) or the error dict, which in the code is
the one-key dict mapping "error" to the message carried here. -/
inductive MRResult where
  | data (body : String)
  | errorDict (msg : String)
deriving DecidableEq

/-- Result of make_request_with_circuit_breaker: the graceful fallback dict
built by _create_graceful_fallback (http_reader.py lines 162-174), or the
value returned by make_request. -/
inductive GuardedResult where
  | fallback
  | normal (r : MRResult)
deriving DecidableEq

/-- The default of the enable_circuit_breaker constructor parameter
(http_reader.py line 100). -/
def enable_circuit_breaker_default : Bool :=
  false

/-- HTTPReader.make_request_with_circuit_breaker from http_reader.py lines
145-160, with rate limiting (a pure delay) elided. mr is the value
make_request returns when it returns; the wrapped call returning normally
is modelled with funcSucceeds true, because an exception escaping the
wrapped call (its message never contains the matched substring) would be
re-raised unconverted, so the fallback can only arise from the breaker-open
rejection, the one exception whose message contains the substring. -/
def make_request_with_circuit_breaker (enable_circuit_breaker : Bool) (cb : CircuitBreaker)
    (now : Nat) (mr : MRResult) : GuardedResult × CircuitBreaker :=
  if enable_circuit_breaker then
    let r := cb.call now true
    match r.1 with
    | CallResult.rejected => (GuardedResult.fallback, r.2)
    | _ => (GuardedResult.normal mr, r.2)
  else (GuardedResult.normal mr, cb)

/-- What the transport layer underneath make_request did: one constructor
per exception class caught in http_reader.py lines 259-277, plus ok for a
received 2xx response carrying the body text and, since JSON parsing is
external, an optional parse-error message (none means response.json()
succeeds). -/
inductive TransportOutcome where
  | timeout (e : String)
  | connError (e : String)
  | httpErr (status : Nat) (e : String)
  | otherExc (e : String)
  | ok (body : String) (parseErr : Option String)
deriving DecidableEq

/-- pyStrip models str.strip() for the ASCII whitespace the bodies use. -/
def pyStrip (s : String) : String :=
  String.mk (((s.data.dropWhile Char.isWhitespace).reverse.dropWhile Char.isWhitespace).reverse)

/-- The content preview of http_reader.py line 244: the first 100
characters with newline and carriage-return replaced by spaces. -/
def contentPreview (s : String) : String :=
  String.mk ((s.data.take 100).map fun c => if c = '\n' ∨ c = '\r' then ' ' else c)

/-- The startswith check of http_reader.py line 243 on the stripped body. -/
def jsonStart (body : String) : Bool :=
  match (pyStrip body).data with
  | [] => false
  | c :: _ => c == '\x7b' || c == '['

/-- Error message of the empty-body path (line 238). -/
def m_empty : String :=
  "Response is empty or contains only whitespace"

/-- Error message of the non-JSON-body path (line 245). -/
def m_notJson (body : String) : String :=
  "Response doesn\x27t appear to be JSON. Content preview: " ++ contentPreview body

/-- Error message of the JSON-decode-failure path (line 255). -/
def m_decode (e : String) : String :=
  "JSON decode error: " ++ e

/-- Error message of the timeout path (line 260). -/
def m_timeout (tmo : Nat) (e : String) : String :=
  "Request timeout after " ++ (toString tmo ++ ("s: " ++ e))

/-- Error message of the connection-error path (line 265). -/
def m_conn (e : String) : String :=
  "Connection error: " ++ e

/-- Error message of the HTTP-status-error path (line 270). -/
def m_http (status : Nat) (e : String) : String :=
  "HTTP error " ++ (toString status ++ (": " ++ e))

/-- Error message of the catch-all path (line 275). -/
def m_unexpected (e : String) : String :=
  "Unexpected error: " ++ e

/-- Every failure path wraps its message like this before putting it under
the "error" key (http_reader.py lines 240, 247, 257, 262, 267, 272, 277). -/
def wrapErr (s : String) : String :=
  "HTTP request failed: " ++ s

/-- Pre-request facts about the arguments of one make_request call, both
evaluated by the code before its try-block: whether the kwargs headers
value is a dict (line 188 calls .copy() on it, raising otherwise) and
whether json.dumps accepts the payload (lines 202-212 interpolate
format_json_for_logging(payload) into log strings ahead of the try at
line 214, raising TypeError or ValueError on a set, a datetime or a
circular reference inside an otherwise type-correct dict). Both are
oracles for operations on opaque Python values, like parseErr. -/
structure MRInput where
  headers_is_dict : Bool
  payload_serializable : Bool
deriving DecidableEq

/-- What one make_request call does as seen by its caller: raised models an
exception propagating out of make_request itself, returns r a normal
return with value r. -/
inductive MRCall where
  | raised
  | returns (r : MRResult)
deriving DecidableEq

/-- HTTPReader.make_request from http_reader.py lines 176-277 as a function
of the configured timeout, the pre-request facts about its arguments and
the transport outcome. The pre-try phase runs first: headers.copy()
(line 188) and the json.dumps(payload) inside the logging strings
(lines 202-212) sit before the try at line 214, so either failing raises
out of make_request before any request is made. Inside the try,
raise_for_status and the exception handlers are decided by the outcome
constructor, and a received response is validated (empty body,
JSON-looking start, parse) in the order of the code, every failure path
returning the error dict. -/
def make_request (tmo : Nat) (inp : MRInput) (o : TransportOutcome) : MRCall :=
  if !inp.headers_is_dict then MRCall.raised
  else if !inp.payload_serializable then MRCall.raised
  else
    MRCall.returns
      (match o with
        | TransportOutcome.ok body parseErr =>
          if pyStrip body = "" then MRResult.errorDict (wrapErr m_empty)
          else if !jsonStart body then MRResult.errorDict (wrapErr (m_notJson body))
          else
            match parseErr with
            | none => MRResult.data body
            | some e => MRResult.errorDict (wrapErr (m_decode e))
        | TransportOutcome.timeout e => MRResult.errorDict (wrapErr (m_timeout tmo e))
        | TransportOutcome.connError e => MRResult.errorDict (wrapErr (m_conn e))
        | TransportOutcome.httpErr st e => MRResult.errorDict (wrapErr (m_http st e))
        | TransportOutcome.otherExc e => MRResult.errorDict (wrapErr (m_unexpected e)))

/-- Arguments that respect the declared parameter types and whose payload
json.dumps accepts. -/
def goodArgs : MRInput :=
  ⟨true, true⟩

/-- Arguments whose payload dict holds a value json.dumps rejects:
type-correct per the annotations yet unserializable. -/
def unserializableArgs : MRInput :=
  ⟨true, false⟩

/-- Discriminator on the first ten characters of a message: the seven
failure-cause templates of make_request fix pairwise different ten-character
heads, so each cause is recoverable from the message alone. -/
def errCauseL (p : List Char) : Nat :=
  if p = "Response i".data then 1
  else if p = "Response d".data then 2
  else if p = "JSON decod".data then 3
  else if p = "Request ti".data then 4
  else if p = "Connection".data then 5
  else if p = "HTTP error".data then 6
  else if p = "Unexpected".data then 7
  else 0

/-- Failure cause recovered from a bare (unwrapped) error message. -/
def errCause (s : String) : Nat :=
  errCauseL (s.data.take 10)

/-- A freshly constructed service-call breaker (threshold 5, window 60 s). -/
def closedFresh : CircuitBreaker :=
  CircuitBreaker.init 5 60

/-- The monitor after one failure recorded at time 5. -/
def mOneFail : ServiceMonitor :=
  (initMonitor.log_attempt_failure 5).1

theorem sanity_classify_timeout : classify_error "Read TIMED OUT (403)" = FailureType.TIMEOUT := by
  decide

theorem sanity_classify_unknown : classify_error "weird" = FailureType.UNKNOWN_ERROR := by
  decide

theorem sanity_call_reject : (openStale.call 5 true).1 = CallResult.rejected := by
  decide

theorem sanity_fail4 :
    MEvent.alert "CONSECUTIVE_FAILURES" "CRITICAL" ∈ ((mAfterFailures 3).log_attempt_failure 0).2 := by
  decide

theorem string_data_append (a b : String) : (a ++ b).data = a.data ++ b.data :=
  rfl

theorem listStarts_nil : ∀ (l : List Char), listStarts l [] = true := by
  intro l
  cases l <;> rfl

theorem listStarts_append : ∀ (p rest : List Char), listStarts (p ++ rest) p = true := by
  intro p rest
  induction p with
  | nil => simp [listStarts_nil]
  | cons c cs ih => simp [listStarts, ih]

theorem strStarts_wrap (x : String) : strStarts (wrapErr x) "HTTP request failed: " = true := by
  unfold strStarts wrapErr
  rw [string_data_append]
  exact listStarts_append _ _

theorem take_append_of_le_len {α : Type} :
    ∀ (n : Nat) (l1 l2 : List α), n ≤ l1.length → (l1 ++ l2).take n = l1.take n := by
  intro n l1
  induction l1 generalizing n with
  | nil =>
    intro l2 h
    simp at h
    simp [h]
  | cons a as ih =>
    intro l2 h
    cases n with
    | zero => simp
    | succ m =>
      simp only [List.cons_append, List.take_succ_cons]
      rw [ih m l2 (by simpa using h)]

theorem drop_append_of_le_len {α : Type} :
    ∀ (n : Nat) (l1 l2 : List α), n ≤ l1.length → (l1 ++ l2).drop n = l1.drop n ++ l2 := by
  intro n l1
  induction l1 generalizing n with
  | nil =>
    intro l2 h
    simp at h
    simp [h]
  | cons a as ih =>
    intro l2 h
    cases n with
    | zero => simp
    | succ m =>
      simp only [List.cons_append, List.drop_succ_cons]
      exact ih m l2 (by simpa using h)

theorem lastN_length {α : Type} (n : Nat) (l : List α) : (lastN n l).length = min n l.length := by
  unfold lastN
  simp only [List.length_drop]
  omega

theorem lastN_of_le {α : Type} (n : Nat) (l : List α) (h : l.length ≤ n) : lastN n l = l := by
  unfold lastN
  have h0 : l.length - n = 0 := by omega
  simp [h0]

theorem lastN_append_lastN {α : Type} (n : Nat) (xs ys : List α) :
    lastN n (lastN n xs ++ ys) = lastN n (xs ++ ys) := by
  rcases Nat.le_total xs.length n with h | h
  · rw [lastN_of_le n xs h]
  · unfold lastN
    have hdl : (xs.drop (xs.length - n)).length = n := by
      simp only [List.length_drop]
      omega
    simp only [List.length_append, hdl, List.length_drop]
    have e1 : n + ys.length - n = ys.length := by omega
    have e2 : xs.length + ys.length - n = (xs.length - n) + ys.length := by omega
    rw [e1, e2, ← List.drop_drop, drop_append_of_le_len (xs.length - n) xs ys (by omega)]

theorem pushWindow_eq_lastN (n : Nat) (w : List Bool) (b : Bool) (h : w.length ≤ n) :
    pushWindow n w b = lastN n (w ++ [b]) := by
  unfold pushWindow lastN
  simp only [List.length_append, List.length_cons, List.length_nil, Nat.zero_add]
  by_cases hc : n < w.length + 1
  · have h1 : w.length + 1 - n = 1 := by omega
    simp [hc, h1, List.drop_one]
  · have h0 : w.length + 1 - n = 0 := by omega
    simp [hc, h0]

theorem recordOne_window (m : ServiceMonitor) (b : Bool) :
    (recordOne m b).failure_window = pushWindow m.window_size m.failure_window b ∧
    (recordOne m b).window_size = m.window_size := by
  cases b <;>
    simp [recordOne, ServiceMonitor.log_attempt_success, ServiceMonitor.log_attempt_failure]

theorem recordSeq_window : ∀ (os : List Bool) (m : ServiceMonitor),
    m.failure_window.length ≤ m.window_size →
    (recordSeq m os).failure_window = lastN m.window_size (m.failure_window ++ os) ∧
    (recordSeq m os).window_size = m.window_size := by
  intro os
  induction os with
  | nil =>
    intro m h
    refine ⟨?_, rfl⟩
    simp only [recordSeq, List.foldl_nil, List.append_nil]
    exact (lastN_of_le _ _ h).symm
  | cons b os ih =>
    intro m h
    have hw := recordOne_window m b
    have hpw : pushWindow m.window_size m.failure_window b = lastN m.window_size (m.failure_window ++ [b]) :=
      pushWindow_eq_lastN _ _ _ h
    have hlen : (recordOne m b).failure_window.length ≤ (recordOne m b).window_size := by
      rw [hw.1, hw.2, hpw, lastN_length]
      omega
    have hrec : recordSeq m (b :: os) = recordSeq (recordOne m b) os := rfl
    obtain ⟨h1, h2⟩ := ih (recordOne m b) hlen
    rw [hrec]
    refine ⟨?_, by rw [h2, hw.2]⟩
    rw [h1, hw.1, hw.2, hpw, lastN_append_lastN, List.append_assoc]
    rfl

theorem alert_crit_ne_warn :
    MEvent.alert "CONSECUTIVE_FAILURES" "CRITICAL" ≠ MEvent.alert "HIGH_FAILURE_RATE" "WARNING" := by
  decide

theorem errCause_append (a b : String) (h : 10 ≤ a.data.length) :
    errCause (a ++ b) = errCauseL (a.data.take 10) := by
  unfold errCause
  rw [string_data_append, take_append_of_le_len 10 a.data b.data h]

/-- C1: classify_error is total and deterministic (a Lean function; unmatched
input yields UNKNOWN_ERROR by the final conjunct) and applies
case-insensitive substring rules in the fixed order timeout, connection
refused/failed, access-denied/forbidden/403, DNS, JSON decode, HTTP status
codes, SQL/database/driver, UNKNOWN, first match winning; the first conjunct
holds with no guard on the later rules, so a message containing "timeout" in
any case classifies as TIMEOUT even when it also contains "403". -/
theorem C1_classifier_rule_order (s : String) :
    ((hasSub "timed out" (pyLower s) || hasSub "timeout" (pyLower s)) = true →
      classify_error s = FailureType.TIMEOUT) ∧
    ((hasSub "timed out" (pyLower s) || hasSub "timeout" (pyLower s)) = false →
      (hasSub "connection" (pyLower s) &&
        (hasSub "refused" (pyLower s) || hasSub "failed" (pyLower s))) = true →
      classify_error s = FailureType.CONNECTION_ERROR) ∧
    ((hasSub "timed out" (pyLower s) || hasSub "timeout" (pyLower s)) = false →
      (hasSub "connection" (pyLower s) &&
        (hasSub "refused" (pyLower s) || hasSub "failed" (pyLower s))) = false →
      (hasSub "access denied" (pyLower s) || hasSub "forbidden" (pyLower s) ||
        hasSub "403" (pyLower s)) = true →
      classify_error s = FailureType.ACCESS_DENIED) ∧
    ((hasSub "timed out" (pyLower s) || hasSub "timeout" (pyLower s)) = false →
      (hasSub "connection" (pyLower s) &&
        (hasSub "refused" (pyLower s) || hasSub "failed" (pyLower s))) = false →
      (hasSub "access denied" (pyLower s) || hasSub "forbidden" (pyLower s) ||
        hasSub "403" (pyLower s)) = false →
      hasSub "dns resolution failed" (pyLower s) = true →
      classify_error s = FailureType.DNS_ERROR) ∧
    ((hasSub "timed out" (pyLower s) || hasSub "timeout" (pyLower s)) = false →
      (hasSub "connection" (pyLower s) &&
        (hasSub "refused" (pyLower s) || hasSub "failed" (pyLower s))) = false →
      (hasSub "access denied" (pyLower s) || hasSub "forbidden" (pyLower s) ||
        hasSub "403" (pyLower s)) = false →
      hasSub "dns resolution failed" (pyLower s) = false →
      (hasSub "json decode" (pyLower s) || hasSub "json" (pyLower s)) = true →
      classify_error s = FailureType.JSON_DECODE_ERROR) ∧
    ((hasSub "timed out" (pyLower s) || hasSub "timeout" (pyLower s)) = false →
      (hasSub "connection" (pyLower s) &&
        (hasSub "refused" (pyLower s) || hasSub "failed" (pyLower s))) = false →
      (hasSub "access denied" (pyLower s) || hasSub "forbidden" (pyLower s) ||
        hasSub "403" (pyLower s)) = false →
      hasSub "dns resolution failed" (pyLower s) = false →
      (hasSub "json decode" (pyLower s) || hasSub "json" (pyLower s)) = false →
      (hasSub "404" (pyLower s) || hasSub "500" (pyLower s) || hasSub "502" (pyLower s) ||
        hasSub "503" (pyLower s) || hasSub "504" (pyLower s)) = true →
      classify_error s = FailureType.HTTP_ERROR) ∧
    ((hasSub "timed out" (pyLower s) || hasSub "timeout" (pyLower s)) = false →
      (hasSub "connection" (pyLower s) &&
        (hasSub "refused" (pyLower s) || hasSub "failed" (pyLower s))) = false →
      (hasSub "access denied" (pyLower s) || hasSub "forbidden" (pyLower s) ||
        hasSub "403" (pyLower s)) = false →
      hasSub "dns resolution failed" (pyLower s) = false →
      (hasSub "json decode" (pyLower s) || hasSub "json" (pyLower s)) = false →
      (hasSub "404" (pyLower s) || hasSub "500" (pyLower s) || hasSub "502" (pyLower s) ||
        hasSub "503" (pyLower s) || hasSub "504" (pyLower s)) = false →
      (hasSub "sql" (pyLower s) || hasSub "database" (pyLower s) ||
        hasSub "driver" (pyLower s)) = true →
      classify_error s = FailureType.DB_ERROR) ∧
    ((hasSub "timed out" (pyLower s) || hasSub "timeout" (pyLower s)) = false →
      (hasSub "connection" (pyLower s) &&
        (hasSub "refused" (pyLower s) || hasSub "failed" (pyLower s))) = false →
      (hasSub "access denied" (pyLower s) || hasSub "forbidden" (pyLower s) ||
        hasSub "403" (pyLower s)) = false →
      hasSub "dns resolution failed" (pyLower s) = false →
      (hasSub "json decode" (pyLower s) || hasSub "json" (pyLower s)) = false →
      (hasSub "404" (pyLower s) || hasSub "500" (pyLower s) || hasSub "502" (pyLower s) ||
        hasSub "503" (pyLower s) || hasSub "504" (pyLower s)) = false →
      (hasSub "sql" (pyLower s) || hasSub "database" (pyLower s) ||
        hasSub "driver" (pyLower s)) = false →
      classify_error s = FailureType.UNKNOWN_ERROR) := by
  refine ⟨?_, ?_, ?_, ?_, ?_, ?_, ?_, ?_⟩ <;> intros <;> simp_all [classify_error]

/-- C1 witness: a message containing both a capitalized timeout phrase and
"403" classifies as TIMEOUT by the first rule. -/
theorem C1_witness :
    (hasSub "timed out" (pyLower "Read TIMED OUT (403)") ||
      hasSub "timeout" (pyLower "Read TIMED OUT (403)")) = true ∧
    classify_error "Read TIMED OUT (403)" = FailureType.TIMEOUT :=
  ⟨by decide, (C1_classifier_rule_order "Read TIMED OUT (403)").1 (by decide)⟩

/-- C2: an OPEN breaker rejects any call attempted before timeout seconds
have elapsed since last_failure_time: the result is the distinguishable
rejected outcome for either value of funcSucceeds (so the wrapped operation
is never consulted) and the returned breaker is the input unchanged (state,
failure_count and last_failure_time included). -/
theorem C2_open_rejects_before_timeout (cb : CircuitBreaker) (now t : Nat) (f : Bool)
    (hs : cb.state = BState.OPEN) (hl : cb.last_failure_time = some t)
    (hmono : t ≤ now) (ht : now - t < cb.timeout) :
    cb.call now f = (CallResult.rejected, cb) := by
  have hmod : ((now : Int) - (t : Int)) % 86400 < (cb.timeout : Int) := by omega
  simp [CircuitBreaker.call, hs, hl, hmod]

/-- C2 witness: the stale OPEN breaker rejects at 10 seconds after its last
failure, below its 30 second window, leaving the breaker unchanged. -/
theorem C2_witness :
    openStale.state = BState.OPEN ∧ openStale.last_failure_time = some 0 ∧
    (10 : Nat) - 0 < openStale.timeout ∧
    openStale.call 10 true = (CallResult.rejected, openStale) :=
  ⟨rfl, rfl, by decide, C2_open_rejects_before_timeout openStale 10 0 true rfl rfl
    (by decide) (by decide)⟩

/-- C3 (code bug): the claim and the spec require the first call after
now - lastFailureTime has reached openTimeoutSeconds to be let through as a
HalfOpen trial. The code compares (now - last_failure_time).seconds, the
daily-wrapping seconds component of the timedelta, instead of
total_seconds(): at 86410 s (one day and 10 s) after the failure, elapsed
time exceeds the 30 s window, yet the seconds component is 10 and the call
is rejected with the breaker left OPEN, never reaching HalfOpen. -/
theorem C3_halfopen_gate_day_wrap_bug :
    openStale.timeout ≤ 86410 - 0 ∧
    openStale.call 86410 true = (CallResult.rejected, openStale) := by
  constructor
  · decide
  · decide

/-- C4 counterexample: in the CLOSED state a successful call leaves
failure_count untouched, it is not reset to 0 as the claim states:
the breaker with two recorded failures still shows two after a success. -/
theorem C4_counterexample :
    closedTwo.state = BState.CLOSED ∧ closedTwo.failure_count = 2 ∧
    (closedTwo.call 100 true).1 = CallResult.succeeded ∧
    ((closedTwo.call 100 true).2.failure_count == 0) = false := by
  decide

/-- C4 (amended): in the CLOSED state a successful call returns the breaker
completely unchanged (failure_count is reset only by the success of a trial
in the HalfOpen or Open branch); a failed call increments failure_count by
exactly one, sets last_failure_time to the failure time, and moves to OPEN
exactly when the incremented count reaches failure_threshold, staying CLOSED
otherwise. -/
theorem C4_closed_transitions (cb : CircuitBreaker) (now : Nat)
    (hs : cb.state = BState.CLOSED) :
    cb.call now true = (CallResult.succeeded, cb) ∧
    (cb.call now false).1 = CallResult.failed ∧
    (cb.call now false).2.failure_count = cb.failure_count + 1 ∧
    (cb.call now false).2.last_failure_time = some now ∧
    (cb.call now false).2.state =
      (if cb.failure_threshold ≤ cb.failure_count + 1 then BState.OPEN else BState.CLOSED) := by
  by_cases hth : cb.failure_threshold ≤ cb.failure_count + 1 <;>
    simp [CircuitBreaker.call, hs, hth]

/-- C4 witness: a fresh CLOSED breaker keeps its state on success and counts
one failure. -/
theorem C4_witness :
    closedFresh.state = BState.CLOSED ∧
    closedFresh.call 9 true = (CallResult.succeeded, closedFresh) ∧
    (closedFresh.call 9 false).2.failure_count = closedFresh.failure_count + 1 :=
  ⟨rfl, (C4_closed_transitions closedFresh 9 rfl).1, (C4_closed_transitions closedFresh 9 rfl).2.2.1⟩

theorem alert_warn_ne_crit :
    MEvent.alert "HIGH_FAILURE_RATE" "WARNING" ≠ MEvent.alert "CONSECUTIVE_FAILURES" "CRITICAL" := by
  decide

/-- C5 counterexample: after three straight failures a fourth failure
re-fires the CRITICAL CONSECUTIVE_FAILURES alert, contradicting the claim
that the alert is not re-fired on failures four, five and so on. -/
theorem C5_counterexample :
    (mAfterFailures 3).consecutive_failures = 3 ∧
    MEvent.alert "CONSECUTIVE_FAILURES" "CRITICAL" ∈ ((mAfterFailures 3).log_attempt_failure 0).2 := by
  decide

/-- C5 (amended): the alert check is level-triggered, not edge-triggered:
a recorded failure emits the CRITICAL CONSECUTIVE_FAILURES alert exactly
when the incremented consecutive-failure count has reached the threshold,
so it fires on the crossing failure and again on every later failure of the
same streak. -/
theorem C5_critical_level_triggered (m : ServiceMonitor) (now : Nat) :
    MEvent.alert "CONSECUTIVE_FAILURES" "CRITICAL" ∈ (m.log_attempt_failure now).2 ↔
      m.consecutive_failure_threshold ≤ m.consecutive_failures + 1 := by
  unfold ServiceMonitor.log_attempt_failure ServiceMonitor.check_and_generate_alerts
  simp only [List.mem_cons, List.mem_append]
  split_ifs with h1 h2 <;> simp_all [alert_crit_ne_warn]

/-- C6: for every recorded outcome sequence the monitor window is exactly
the most recent outcomes, its length is min(windowSize, total recorded)
with windowSize 10 and so never exceeds 10, and the failure rate is
failures-in-window over window length, 0 when the window is empty. -/
theorem C6_sliding_window (os : List Bool) :
    (recordSeq initMonitor os).failure_window = lastN 10 os ∧
    (recordSeq initMonitor os).failure_window.length = min 10 os.length ∧
    (os = [] → (recordSeq initMonitor os).calculate_failure_rate = 0) ∧
    (os ≠ [] →
      (recordSeq initMonitor os).calculate_failure_rate =
        (((lastN 10 os).count false : Nat) : Rat) / (((lastN 10 os).length : Nat) : Rat)) := by
  have h := recordSeq_window os initMonitor (by decide)
  have hwin : (recordSeq initMonitor os).failure_window = lastN 10 os := by
    have h1 := h.1
    simpa [initMonitor, ServiceMonitor.mkInit] using h1
  refine ⟨hwin, ?_, ?_, ?_⟩
  · rw [hwin, lastN_length]
  · intro he
    subst he
    decide
  · intro hne
    have hpos : lastN 10 os ≠ [] := by
      intro h0
      have hl : (lastN 10 os).length = 0 := by rw [h0]; rfl
      rw [lastN_length] at hl
      have hz : os.length = 0 := by omega
      exact hne (List.length_eq_zero.mp hz)
    simp only [ServiceMonitor.calculate_failure_rate, hwin]
    rw [if_neg hpos, Rat.mkRat_eq_div]
    norm_num

/-- C6 witness: the empty sequence yields rate 0 and a three-outcome
sequence yields the window rate of its own three entries. -/
theorem C6_witness :
    (recordSeq initMonitor []).calculate_failure_rate = 0 ∧
    (recordSeq initMonitor [false, true, false]).calculate_failure_rate =
      (((lastN 10 [false, true, false]).count false : Nat) : Rat) /
        (((lastN 10 [false, true, false]).length : Nat) : Rat) :=
  ⟨(C6_sliding_window []).2.2.1 rfl,
   (C6_sliding_window [false, true, false]).2.2.2 (by decide)⟩

/-- C7: downtime_start is set by the failure that makes
consecutive_failures equal 1 and is untouched by later failures of the
streak; a success while downtime_start is set emits exactly one
SERVICE_RECOVERY event carrying the elapsed downtime (nonnegative under a
monotone clock) and clears downtime_start; a success with downtime_start
unset emits no recovery event. -/
theorem C7_downtime_recovery (m : ServiceMonitor) (now d : Nat) :
    (m.consecutive_failures = 0 → (m.log_attempt_failure now).1.downtime_start = some now) ∧
    (m.consecutive_failures ≠ 0 →
      (m.log_attempt_failure now).1.downtime_start = m.downtime_start) ∧
    (m.downtime_start = some d → d ≤ now →
      recoveries (m.log_attempt_success now).2 =
        [MEvent.service_recovery ((now : Int) - (d : Int))] ∧
      0 ≤ (now : Int) - (d : Int) ∧
      (m.log_attempt_success now).1.downtime_start = none) ∧
    (m.downtime_start = none → recoveries (m.log_attempt_success now).2 = []) := by
  refine ⟨?_, ?_, ?_, ?_⟩
  · intro h
    simp [ServiceMonitor.log_attempt_failure, h]
  · intro h
    have hne : ¬ (m.consecutive_failures + 1 = 1) := by omega
    simp [ServiceMonitor.log_attempt_failure, hne]
  · intro h hd
    refine ⟨?_, by omega, ?_⟩ <;> simp [ServiceMonitor.log_attempt_success, recoveries, h]
  · intro h
    simp [ServiceMonitor.log_attempt_success, recoveries, h]

/-- C7 witness: one failure at time 5 opens a streak, the success at time 9
emits the single recovery event of duration 4 and clears downtime_start;
the fresh monitor emits no recovery on success. -/
theorem C7_witness :
    initMonitor.consecutive_failures = 0 ∧
    (initMonitor.log_attempt_failure 5).1.downtime_start = some 5 ∧
    mOneFail.downtime_start = some 5 ∧
    recoveries (mOneFail.log_attempt_success 9).2 =
      [MEvent.service_recovery ((9 : Int) - (5 : Int))] ∧
    0 ≤ (9 : Int) - (5 : Int) ∧
    (mOneFail.log_attempt_success 9).1.downtime_start = none ∧
    recoveries (initMonitor.log_attempt_success 9).2 = [] :=
  ⟨rfl, (C7_downtime_recovery initMonitor 5 0).1 rfl, by decide,
   ((C7_downtime_recovery mOneFail 9 5).2.2.1 (by decide) (by decide)).1,
   ((C7_downtime_recovery mOneFail 9 5).2.2.1 (by decide) (by decide)).2.1,
   ((C7_downtime_recovery mOneFail 9 5).2.2.1 (by decide) (by decide)).2.2,
   (C7_downtime_recovery initMonitor 9 0).2.2.2 rfl⟩

/-- C8: a recorded failure emits the WARNING HIGH_FAILURE_RATE alert if and
only if, on the updated monitor, the window failure rate has reached the
threshold and the window holds at least 5 samples; concretely the third
straight failure from a fresh monitor has rate 1 (at least 0.8) on a window
of 3 samples and its emitted events are the failure log plus the CRITICAL
alert only, with no WARNING alert. -/
theorem C8_warning_needs_min_samples (m : ServiceMonitor) (now : Nat) :
    (MEvent.alert "HIGH_FAILURE_RATE" "WARNING" ∈ (m.log_attempt_failure now).2 ↔
      ((m.log_attempt_failure now).1.failure_rate_threshold ≤
          (m.log_attempt_failure now).1.calculate_failure_rate ∧
        5 ≤ (m.log_attempt_failure now).1.failure_window.length)) ∧
    ((mAfterFailures 2).log_attempt_failure 0).1.failure_rate_threshold ≤
      ((mAfterFailures 2).log_attempt_failure 0).1.calculate_failure_rate ∧
    ((mAfterFailures 2).log_attempt_failure 0).1.failure_window.length = 3 ∧
    ((mAfterFailures 2).log_attempt_failure 0).2 =
      [MEvent.request_failure, MEvent.alert "CONSECUTIVE_FAILURES" "CRITICAL"] := by
  refine ⟨?_, by decide, by decide, by decide⟩
  unfold ServiceMonitor.log_attempt_failure ServiceMonitor.check_and_generate_alerts
  simp only [List.mem_cons, List.mem_append]
  split_ifs with h1 h2 <;> simp_all [alert_warn_ne_crit]

/-- C9: the breaker-open rejection is converted into the graceful fallback
result exactly when the caller opted in by constructing the reader with
enable_circuit_breaker true and the breaker rejected the call; with the
flag false, and in particular under its default value false, every guarded
request returns the make_request result unchanged, so the conversion is
never the silent default behaviour. -/
theorem C9_fallback_requires_opt_in (enabled : Bool) (cb : CircuitBreaker) (now : Nat)
    (mr : MRResult) :
    ((make_request_with_circuit_breaker enabled cb now mr).1 = GuardedResult.fallback ↔
      enabled = true ∧ (cb.call now true).1 = CallResult.rejected) ∧
    make_request_with_circuit_breaker false cb now mr = (GuardedResult.normal mr, cb) ∧
    make_request_with_circuit_breaker enable_circuit_breaker_default cb now mr =
      (GuardedResult.normal mr, cb) := by
  refine ⟨?_, rfl, rfl⟩
  cases enabled with
  | false => simp [make_request_with_circuit_breaker]
  | true =>
    rcases hc : cb.call now true with ⟨cr, cb2⟩
    cases cr <;> simp [make_request_with_circuit_breaker, hc]

/-- C10 counterexample: the claim says make_request never raises and
returns a dict for every input and transport outcome; but with a
type-correct dict payload holding one non-JSON-serializable value, the
json.dumps inside the pre-try logging strings raises to the caller even
though the transport would have delivered a valid response. -/
theorem C10_counterexample :
    make_request 20 unserializableArgs (TransportOutcome.ok "[]" none) = MRCall.raised := by
  decide

/-- C10 (amended): for every call whose headers argument is a dict and
whose payload json.dumps accepts, make_request never raises and returns a
dict for every transport outcome; every error dict it returns, for any
arguments, carries a message starting with "HTTP request failed: "; every
transport-level failure returns its error dict; and the seven failure-cause
message templates are pairwise distinguishable, each one determining a
distinct cause code from its first characters alone whatever the embedded
details are. -/
theorem C10_error_dict_contract :
    (∀ (tmo : Nat) (inp : MRInput) (o : TransportOutcome),
      inp.headers_is_dict = true → inp.payload_serializable = true →
      ∃ r, make_request tmo inp o = MRCall.returns r) ∧
    (∀ (tmo : Nat) (inp : MRInput) (o : TransportOutcome) (s : String),
      make_request tmo inp o = MRCall.returns (MRResult.errorDict s) →
      strStarts s "HTTP request failed: " = true) ∧
    (∀ (tmo : Nat) (e : String),
      make_request tmo goodArgs (TransportOutcome.timeout e) =
        MRCall.returns (MRResult.errorDict (wrapErr (m_timeout tmo e)))) ∧
    (∀ (tmo : Nat) (e : String),
      make_request tmo goodArgs (TransportOutcome.connError e) =
        MRCall.returns (MRResult.errorDict (wrapErr (m_conn e)))) ∧
    (∀ (tmo st : Nat) (e : String),
      make_request tmo goodArgs (TransportOutcome.httpErr st e) =
        MRCall.returns (MRResult.errorDict (wrapErr (m_http st e)))) ∧
    (∀ (tmo : Nat) (e : String),
      make_request tmo goodArgs (TransportOutcome.otherExc e) =
        MRCall.returns (MRResult.errorDict (wrapErr (m_unexpected e)))) ∧
    (∀ (tmo st : Nat) (e1 e2 e3 e4 e5 b : String),
      errCause m_empty = 1 ∧ errCause (m_notJson b) = 2 ∧ errCause (m_decode e1) = 3 ∧
      errCause (m_timeout tmo e2) = 4 ∧ errCause (m_conn e3) = 5 ∧
      errCause (m_http st e4) = 6 ∧ errCause (m_unexpected e5) = 7) := by
  refine ⟨?_, ?_, fun tmo e => rfl, fun tmo e => rfl, fun tmo st e => rfl, fun tmo e => rfl, ?_⟩
  · intro tmo inp o h1 h2
    rcases inp with ⟨hd, ps⟩
    cases hd with
    | false => simp at h1
    | true =>
      cases ps with
      | false => simp at h2
      | true => exact ⟨_, rfl⟩
  · intro tmo inp o s h
    rcases inp with ⟨hd, ps⟩
    cases hd with
    | false => simp [make_request] at h
    | true =>
      cases ps with
      | false => simp [make_request] at h
      | true =>
        cases o with
        | timeout e =>
          simp only [make_request, Bool.not_true, Bool.false_eq_true, if_false,
            MRCall.returns.injEq, MRResult.errorDict.injEq] at h
          subst h
          exact strStarts_wrap _
        | connError e =>
          simp only [make_request, Bool.not_true, Bool.false_eq_true, if_false,
            MRCall.returns.injEq, MRResult.errorDict.injEq] at h
          subst h
          exact strStarts_wrap _
        | httpErr st e =>
          simp only [make_request, Bool.not_true, Bool.false_eq_true, if_false,
            MRCall.returns.injEq, MRResult.errorDict.injEq] at h
          subst h
          exact strStarts_wrap _
        | otherExc e =>
          simp only [make_request, Bool.not_true, Bool.false_eq_true, if_false,
            MRCall.returns.injEq, MRResult.errorDict.injEq] at h
          subst h
          exact strStarts_wrap _
        | ok body p =>
          simp only [make_request, Bool.not_true, Bool.false_eq_true, if_false,
            MRCall.returns.injEq] at h
          split at h
          · rw [MRResult.errorDict.injEq] at h
            subst h
            exact strStarts_wrap _
          · split at h
            · rw [MRResult.errorDict.injEq] at h
              subst h
              exact strStarts_wrap _
            · cases p with
              | none => exact absurd h (by simp)
              | some e =>
                rw [MRResult.errorDict.injEq] at h
                subst h
                exact strStarts_wrap _
  · intro tmo st e1 e2 e3 e4 e5 b
    refine ⟨by decide, ?_, ?_, ?_, ?_, ?_, ?_⟩
    · rw [m_notJson, errCause_append _ _ (by decide)]
      decide
    · rw [m_decode, errCause_append _ _ (by decide)]
      decide
    · rw [m_timeout, errCause_append _ _ (by decide)]
      decide
    · rw [m_conn, errCause_append _ _ (by decide)]
      decide
    · rw [m_http, errCause_append _ _ (by decide)]
      decide
    · rw [m_unexpected, errCause_append _ _ (by decide)]
      decide

/-- C10 witness: with well-formed arguments a concrete connection failure
returns rather than raises, its error dict message carries the required
failure marker. -/
theorem C10_witness :
    goodArgs.headers_is_dict = true ∧ goodArgs.payload_serializable = true ∧
    make_request 7 goodArgs (TransportOutcome.connError "boom") =
      MRCall.returns (MRResult.errorDict (wrapErr (m_conn "boom"))) ∧
    strStarts (wrapErr (m_conn "boom")) "HTTP request failed: " = true ∧
    (∃ r, make_request 7 goodArgs (TransportOutcome.connError "boom") = MRCall.returns r) :=
  ⟨rfl, rfl, C10_error_dict_contract.2.2.2.1 7 "boom",
   C10_error_dict_contract.2.1 7 goodArgs (TransportOutcome.connError "boom")
     (wrapErr (m_conn "boom")) rfl,
   C10_error_dict_contract.1 7 goodArgs (TransportOutcome.connError "boom") rfl rfl⟩
